import Mathlib

/-!
Shallow embedding of `app.py` from the CS203_Lab_01 course catalog web
application: the JSON file store (`load_courses`, `save_courses`), the
catalog routes, the form validation of `add_courses`, and the
per-request observability hooks (`before_request`, `after_request`).
Machine-level concerns (wall-clock floats) are modelled with `Int`
timestamps; the Python `json` module and the Flask / OpenTelemetry
runtime behaviour that the routes rely on are modelled explicitly and
documented at each definition.
-/

/-- A parsed JSON value, as produced by the Python `json` module:
`null`, booleans, numbers, strings, arrays and objects. Only the
structure matters to the claims, so numbers are `Int`. -/
inductive Json where
  | null
  | bool (b : Bool)
  | num (n : Int)
  | str (s : String)
  | arr (items : List Json)
  | obj (fields : List (String × Json))

/-- Python exceptions that the embedded code can raise:
`json.JSONDecodeError` from `json.load` on malformed text,
`AttributeError` from `.append` on a non-list, `TypeError` from
iterating or indexing a value of the wrong type, `KeyError` from a
missing dictionary key. -/
inductive PyError where
  | jsonDecodeError
  | attributeError
  | typeError
  | keyError
  deriving DecidableEq, Repr

/-- The state of the backing file `course_catalog.json`, as seen
through `os.path.exists` and `json.load`: the file is absent, or it
exists but its text is not valid JSON (so `json.load` raises
`json.JSONDecodeError`), or it parses to the JSON value `v`. The
text-to-value parsing itself is Python standard library behaviour and
is abstracted into this three-way split. -/
inductive FileContent where
  | absent
  | malformed
  | json (v : Json)

/-- Embedding of `load_courses` (app.py lines 66-71): if the file does
not exist return the empty list, otherwise return whatever `json.load`
produces, raising its decode error on malformed text. No check that
the parsed value is an array is performed. -/
def load_courses : FileContent → Except PyError Json
  | FileContent.absent => Except.ok (Json.arr [])
  | FileContent.malformed => Except.error PyError.jsonDecodeError
  | FileContent.json v => Except.ok v

/-- Embedding of `save_courses` (app.py lines 73-78): load the current
collection, `append` the new record, write the whole list back. If
`load_courses` raises, the exception propagates before any write; if
the loaded value is not a list, `courses.append(data)` raises
`AttributeError` before any write; only on the list path is the file
rewritten. The second component is the file state after the call. -/
def save_courses (fs : FileContent) (data : Json) : (Except PyError Unit) × FileContent :=
  match load_courses fs with
  | Except.error e => (Except.error e, fs)
  | Except.ok (Json.arr courses) =>
      (Except.ok (), FileContent.json (Json.arr (courses ++ [data])))
  | Except.ok _ => (Except.error PyError.attributeError, fs)

/-- The course collection currently persisted, when the file state is
one that `load_courses` reads as a list: an absent file reads as the
empty collection, a file holding a JSON array as its items. -/
def collectionOf : FileContent → Option (List Json)
  | FileContent.absent => some []
  | FileContent.json (Json.arr xs) => some xs
  | _ => none

/-- A course record as built by the `add_courses` POST handler
(app.py lines 188-193): three string fields. -/
structure Course where
  code : String
  name : String
  instructor : String
  deriving DecidableEq, Repr

/-- The dictionary the POST handler builds from the form fields,
passed to `save_courses`. -/
def courseToJson (c : Course) : Json :=
  Json.obj [("code", Json.str c.code), ("name", Json.str c.name),
            ("instructor", Json.str c.instructor)]

/-- Python iteration over a JSON value: lists yield their items,
dictionaries yield their keys (as strings), strings yield their
one-character substrings; numbers, booleans and None are not iterable
and raise `TypeError`. -/
def pyIter (v : Json) : Except PyError (List Json) :=
  match v with
  | Json.arr items => Except.ok items
  | Json.obj fields => Except.ok (fields.map (fun p => Json.str p.1))
  | Json.str s => Except.ok (s.data.map (fun ch => Json.str (String.mk [ch])))
  | _ => Except.error PyError.typeError

/-- Python subscription `v[k]` with a string key: on a dictionary it
returns the value at `k` or raises `KeyError`; on anything else it
raises `TypeError`. -/
def jsonGet (v : Json) (k : String) : Except PyError Json :=
  match v with
  | Json.obj fields =>
      match fields.find? (fun p => p.1 == k) with
      | some p => Except.ok p.2
      | none => Except.error PyError.keyError
  | _ => Except.error PyError.typeError

/-- Whether the JSON value `v` equals the Python string `s` under
Python `==` (true exactly when `v` is that string). -/
def jsonEqStr (v : Json) (s : String) : Bool :=
  match v with
  | Json.str t => t == s
  | _ => false

/-- Embedding of the generator expression in `course_details`
(app.py line 226): scan the loaded items in order, raising the
exception of `course["code"]` when an item is not a dictionary with
that key, and otherwise return the first item whose code equals
`code`, or `none` when the scan is exhausted. -/
def findFirstByCode : List Json → String → Except PyError (Option Json)
  | [], _ => Except.ok none
  | c :: rest, code =>
      match jsonGet c "code" with
      | Except.error e => Except.error e
      | Except.ok v =>
          if jsonEqStr v code then Except.ok (some c)
          else findFirstByCode rest code

/-- The same first-match scan specialised to well-formed course
records: the first course in insertion order whose `code` field equals
`code`, as in `course_details`. -/
def findByCode (courses : List Course) (code : String) : Option Course :=
  courses.find? (fun course => course.code == code)

/-- Python falsiness of one form field as read by `request.form.get`:
the field is missing exactly when it is absent (`None`) or the empty
string, per `if not course_code or ...` (app.py line 169). -/
def fieldMissing : Option String → Bool
  | none => true
  | some s => s == ""

/-- The `missing_fields` list built by the POST handler (app.py lines
170-176): the display names of the falsy fields, in the fixed order
Course Code, Course Name, Instructor. -/
def missingFields (course_code course_name instructor : Option String) : List String :=
  (if fieldMissing course_code then ["Course Code"] else []) ++
  (if fieldMissing course_name then ["Course Name"] else []) ++
  (if fieldMissing instructor then ["Instructor"] else [])

/-- Outcome of validating one submission. -/
inductive SubmitResult where
  | validationError (missing : List String)
  | success (course : Course)
  deriving DecidableEq, Repr

/-- Embedding of the validation in the `add_courses` POST branch
(app.py lines 169-185): if any of the three fields is falsy, fail with
the list of missing field names; otherwise build the course record
from the field values verbatim. -/
def validate_submission (course_code course_name instructor : Option String) : SubmitResult :=
  if fieldMissing course_code || fieldMissing course_name || fieldMissing instructor then
    SubmitResult.validationError (missingFields course_code course_name instructor)
  else
    SubmitResult.success
      { code := course_code.getD "", name := course_name.getD "",
        instructor := instructor.getD "" }

/-- A route response: a rendered template, a rendered course detail
page, or a redirect to the catalog (with an error flash or not). -/
inductive Resp where
  | render (template : String)
  | renderCourse (course : Json)
  | redirectCatalog (flashError : Bool)

/-- Response of the `add_courses` POST branch. -/
inductive PostResult where
  | redirectWithError (missing : List String)
  | redirectWithSuccess
  deriving DecidableEq, Repr

/-- Embedding of the `index` route (app.py lines 119-132): renders the
home page; it never touches the backing file. -/
def index_route (fs : FileContent) : Resp × FileContent :=
  (Resp.render "index.html", fs)

/-- Embedding of the GET branch of `add_courses` (app.py lines
159-160): renders the form; it never touches the backing file. -/
def add_courses_get (fs : FileContent) : Resp × FileContent :=
  (Resp.render "add_courses.html", fs)

/-- Embedding of `course_catalog` (app.py lines 134-149): load the
collection (propagating any exception), iterate it to build the list
of names (propagating `TypeError` or `KeyError` from `course["name"]`),
then render the catalog. The file is only read, never written. -/
def course_catalog_route (fs : FileContent) : (Except PyError Resp) × FileContent :=
  (match load_courses fs with
   | Except.error e => Except.error e
   | Except.ok v =>
       match pyIter v with
       | Except.error e => Except.error e
       | Except.ok items =>
           match items.mapM (fun e => jsonGet e "name") with
           | Except.error e => Except.error e
           | Except.ok _ => Except.ok (Resp.render "course_catalog.html"),
   fs)

/-- Embedding of `course_details` (app.py lines 209-238): load the
collection, scan for the first course with the given code, redirect
with an error flash on a miss, render the detail page on a hit. The
file is only read, never written. -/
def course_details_route (fs : FileContent) (code : String) : (Except PyError Resp) × FileContent :=
  (match load_courses fs with
   | Except.error e => Except.error e
   | Except.ok v =>
       match pyIter v with
       | Except.error e => Except.error e
       | Except.ok items =>
           match findFirstByCode items code with
           | Except.error e => Except.error e
           | Except.ok none => Except.ok (Resp.redirectCatalog true)
           | Except.ok (some c) => Except.ok (Resp.renderCourse c),
   fs)

/-- Embedding of the POST branch of `add_courses` (app.py lines
162-207): validate the three form fields; on failure redirect with the
missing-fields flash without touching the store; on success call
`save_courses` (whose exceptions propagate) and redirect with the
success flash. The second component is the file state after the
request. -/
def add_courses_post (fs : FileContent) (course_code course_name instructor : Option String) :
    (Except PyError PostResult) × FileContent :=
  match validate_submission course_code course_name instructor with
  | SubmitResult.validationError missing =>
      (Except.ok (PostResult.redirectWithError missing), fs)
  | SubmitResult.success c =>
      let r := save_courses fs (courseToJson c)
      (match r.1 with
       | Except.ok _ => Except.ok PostResult.redirectWithSuccess
       | Except.error e => Except.error e,
       r.2)

/-- An attribute value settable on a span. -/
inductive AttrVal where
  | str (s : String)
  | nat (n : Nat)
  | bool (b : Bool)
  | strList (xs : List String)
  deriving DecidableEq, Repr

/-- An OpenTelemetry span: its name, its attributes in the order they
were recorded, and whether `end` has been called on it. -/
structure Span where
  name : String
  attrs : List (String × AttrVal)
  ended : Bool
  deriving DecidableEq, Repr

/-- `tracer.start_span` / `start_as_current_span`: a fresh, not yet
ended span with the given name and initial attributes. -/
def startSpan (name : String) (attrs : List (String × AttrVal)) : Span :=
  { name := name, attrs := attrs, ended := false }

/-- `Span.set_attribute` of the OpenTelemetry SDK: recording an
attribute on an ended span is ignored (the SDK logs a warning and
returns without modifying the span). -/
def setAttribute (s : Span) (k : String) (v : AttrVal) : Span :=
  if s.ended then s else { s with attrs := s.attrs ++ [(k, v)] }

/-- `Span.end`: mark the span ended. -/
def endSpan (s : Span) : Span :=
  { s with ended := true }

/-- The request data the hooks read from the Flask `request` object. -/
structure Request where
  method : String
  path : String
  url : String
  remote_addr : String
  deriving DecidableEq, Repr

/-- One `add(1, attributes)` sample on a counter, keyed as in
`after_request` by route (the request path) and method. -/
structure MetricAdd where
  route : String
  method : String
  deriving DecidableEq, Repr

/-- One `record(duration, attributes)` sample on the processing-time
histogram, keyed by route and method. -/
structure HistRecord where
  route : String
  method : String
  value : Int
  deriving DecidableEq, Repr

/-- The structured log record emitted by `after_request` via
`logger.info("Request processed", extra=...)`. -/
structure LogRecord where
  message : String
  method : String
  path : String
  status_code : Nat
  user_ip : String
  processing_time_ms : Int
  deriving DecidableEq, Repr

/-- Everything one request contributes to the telemetry state: the
final state of the request span, the counter and histogram samples,
and the log records emitted by the hooks. -/
structure RequestTrace where
  span : Span
  requestCounterAdds : List MetricAdd
  histogramRecords : List HistRecord
  errorCounterAdds : List MetricAdd
  logs : List LogRecord
  deriving DecidableEq, Repr

/-- Embedding of `before_request` (app.py lines 81-91): note the start
time on the request and open a span named `"<METHOD> <PATH>"` with the
method and URL as initial attributes. The start time is threaded
separately to `after_request`. -/
def before_request (req : Request) (_start_time : Int) : Span :=
  startSpan (req.method ++ " " ++ req.path)
    [("http.method", AttrVal.str req.method), ("http.url", AttrVal.str req.url)]

/-- Embedding of `after_request` (app.py lines 93-117): compute the
elapsed milliseconds, tag the span with the status code and, when the
status is at least 400, with `error = true`; add one request-counter
sample and one histogram sample keyed by route and method, and one
error-counter sample when the status is at least 400; end the span;
emit one structured log record. -/
def after_request (req : Request) (span : Span) (start_time end_time : Int)
    (status : Nat) : RequestTrace :=
  let duration : Int := (end_time - start_time) * 1000
  let s1 := setAttribute span "http.status_code" (AttrVal.nat status)
  let s2 := if 400 ≤ status then setAttribute s1 "error" (AttrVal.bool true) else s1
  { span := endSpan s2
    requestCounterAdds := [{ route := req.path, method := req.method }]
    histogramRecords := [{ route := req.path, method := req.method, value := duration }]
    errorCounterAdds :=
      if 400 ≤ status then [{ route := req.path, method := req.method }] else []
    logs := [{ message := "Request processed", method := req.method, path := req.path,
               status_code := status, user_ip := req.remote_addr,
               processing_time_ms := duration }] }

/-- How the route handler exits: with a response carrying a status
code, or by raising an unhandled exception. -/
inductive HandlerOutcome where
  | ok (status : Nat)
  | raises
  deriving DecidableEq, Repr

/-- One full request through the hooks, following the Flask dispatch
the app actually runs (`app.run(debug=True)`, app.py line 241):
`before_request` always runs; `after_request` runs only when the
handler produced a response. With `debug=True` an unhandled handler
exception propagates and the registered `after_request` function is
not executed (Flask documents that `after_request` functions may not
run when an unhandled exception occurs), so on that path the span
stays open and no metric sample or log record is produced by the
hooks. -/
def processRequest (req : Request) (start_time end_time : Int)
    (outcome : HandlerOutcome) : RequestTrace :=
  match outcome with
  | HandlerOutcome.ok status =>
      after_request req (before_request req start_time) start_time end_time status
  | HandlerOutcome.raises =>
      { span := before_request req start_time
        requestCounterAdds := []
        histogramRecords := []
        errorCounterAdds := []
        logs := [] }

/-- How the `course_catalog` handler exits for a given file state: it
raises exactly when the route body propagates an exception (for
example `json.JSONDecodeError` from a malformed file), and otherwise
renders with status 200. -/
def outcomeOfCatalog (fs : FileContent) : HandlerOutcome :=
  match (course_catalog_route fs).1 with
  | Except.error _ => HandlerOutcome.raises
  | Except.ok _ => HandlerOutcome.ok 200

/-- Embedding of the span operations of `course_catalog` (app.py lines
136-148) in source order: the `with` block opens the span, sets the
method, client address and route attributes, and ends the span when
the block exits; only then does the handler load the courses and call
`set_attribute` for `course.count` and `course.names` on the span
object captured inside the block. -/
def course_catalog_span (req : Request) (courses : List Course) : Span :=
  let s0 := startSpan "Rendering Course Catalog" []
  let s1 := setAttribute s0 "http.method" (AttrVal.str req.method)
  let s2 := setAttribute s1 "user.ip" (AttrVal.str req.remote_addr)
  let s3 := setAttribute s2 "route" (AttrVal.str "/catalog")
  let s4 := endSpan s3
  let s5 := setAttribute s4 "course.count" (AttrVal.nat courses.length)
  setAttribute s5 "course.names" (AttrVal.strList (courses.map (fun c => c.name)))

/-- Helper: when at least one field is falsy, `validate_submission`
returns the validation error carrying `missingFields`. -/
lemma validate_submission_fail (course_code course_name instructor : Option String)
    (h : fieldMissing course_code = true ∨ fieldMissing course_name = true ∨
      fieldMissing instructor = true) :
    validate_submission course_code course_name instructor =
      SubmitResult.validationError (missingFields course_code course_name instructor) := by
  unfold validate_submission
  rcases h with h | h | h <;> simp [h]

/-- Helper: `save_courses` on a file state holding the collection `xs`
succeeds and persists `xs` with the record appended. -/
lemma save_courses_collection (fs : FileContent) (xs : List Json) (d : Json)
    (h : collectionOf fs = some xs) :
    save_courses fs d = (Except.ok (), FileContent.json (Json.arr (xs ++ [d]))) := by
  cases fs with
  | absent =>
      simp [collectionOf] at h
      subst h
      rfl
  | malformed => simp [collectionOf] at h
  | json v =>
      cases v with
      | arr items =>
          simp [collectionOf] at h
          subst h
          rfl
      | null => simp [collectionOf] at h
      | bool b => simp [collectionOf] at h
      | num n => simp [collectionOf] at h
      | str s => simp [collectionOf] at h
      | obj fields => simp [collectionOf] at h

/-- Claim C3 (counterexample): the claim says `load()` fails whenever
the file holds valid JSON that is not an array, but on a file holding
the empty JSON object `load_courses` succeeds and returns that object
unchanged. -/
theorem c3_nonarray_json_not_rejected :
    load_courses (FileContent.json (Json.obj [])) = Except.ok (Json.obj []) := rfl

/-- Claim C3 (amended): `load_courses` returns the empty collection
when no backing file exists, fails with the JSON decode error when the
file exists but is not valid JSON, and when the file parses it returns
the parsed value as-is, performing no check that it is an array. -/
theorem c3_amended_load_behavior :
    (load_courses FileContent.absent = Except.ok (Json.arr [])) ∧
    (load_courses FileContent.malformed = Except.error PyError.jsonDecodeError) ∧
    (∀ v : Json, load_courses (FileContent.json v) = Except.ok v) :=
  ⟨rfl, rfl, fun _ => rfl⟩

/-- Claim C4: whenever at least one of the three submission fields is
empty or absent, validation fails with the `missingFields` list, and
that list contains a field name exactly when the corresponding field
is missing, drawn from Course Code, Course Name, Instructor. -/
theorem c4_validation_missing_fields
    (course_code course_name instructor : Option String)
    (h : fieldMissing course_code = true ∨ fieldMissing course_name = true ∨
      fieldMissing instructor = true) :
    validate_submission course_code course_name instructor =
      SubmitResult.validationError (missingFields course_code course_name instructor) ∧
    (∀ f : String, f ∈ missingFields course_code course_name instructor ↔
      ((f = "Course Code" ∧ fieldMissing course_code = true) ∨
       (f = "Course Name" ∧ fieldMissing course_name = true) ∨
       (f = "Instructor" ∧ fieldMissing instructor = true))) := by
  refine ⟨validate_submission_fail _ _ _ h, ?_⟩
  intro f
  unfold missingFields
  by_cases h1 : fieldMissing course_code = true <;>
    by_cases h2 : fieldMissing course_name = true <;>
      by_cases h3 : fieldMissing instructor = true <;>
        simp [h1, h2, h3]

/-- Witness for claim C4 at the concrete input of the spec example:
empty code, name Algo, instructor Dr. X yields exactly Course Code. -/
theorem c4_validation_missing_fields_witness :
    validate_submission (some "") (some "Algo") (some "Dr. X") =
      SubmitResult.validationError ["Course Code"] := by
  have h := c4_validation_missing_fields (some "") (some "Algo") (some "Dr. X")
    (Or.inl rfl)
  rw [h.1]
  decide

/-- Claim C5: `save_courses` on a current collection performs a full
read-modify-write: it succeeds, the persisted collection becomes the
previous one with the new record appended at the end, so its size
grows by exactly one and every existing record keeps its position. -/
theorem c5_append_read_modify_write (fs : FileContent) (xs : List Json) (d : Json)
    (h : collectionOf fs = some xs) :
    (save_courses fs d).1 = Except.ok () ∧
    (save_courses fs d).2 = FileContent.json (Json.arr (xs ++ [d])) ∧
    collectionOf (save_courses fs d).2 = some (xs ++ [d]) ∧
    (xs ++ [d]).length = xs.length + 1 ∧
    (∀ i : Nat, i < xs.length → (xs ++ [d])[i]? = xs[i]?) := by
  have hs := save_courses_collection fs xs d h
  refine ⟨by rw [hs], by rw [hs], by rw [hs]; rfl, by simp, ?_⟩
  intro i hi
  exact List.getElem?_append_left hi

/-- Witness for claim C5: appending a record to a file holding one
record yields the two-record collection in order. -/
theorem c5_append_read_modify_write_witness :
    collectionOf (FileContent.json (Json.arr
        [courseToJson { code := "CS101", name := "Intro", instructor := "Dr. A" }])) =
      some [courseToJson { code := "CS101", name := "Intro", instructor := "Dr. A" }] ∧
    (save_courses (FileContent.json (Json.arr
        [courseToJson { code := "CS101", name := "Intro", instructor := "Dr. A" }]))
      (courseToJson { code := "CS203", name := "Systems", instructor := "Dr. Y" })).2 =
      FileContent.json (Json.arr
        [courseToJson { code := "CS101", name := "Intro", instructor := "Dr. A" },
         courseToJson { code := "CS203", name := "Systems", instructor := "Dr. Y" }]) :=
  ⟨rfl,
   (c5_append_read_modify_write
      (FileContent.json (Json.arr
        [courseToJson { code := "CS101", name := "Intro", instructor := "Dr. A" }]))
      [courseToJson { code := "CS101", name := "Intro", instructor := "Dr. A" }]
      (courseToJson { code := "CS203", name := "Systems", instructor := "Dr. Y" })
      rfl).2.1⟩

/-- Claim C9: a POST submission that fails validation leaves the
persisted collection unchanged and returns the error redirect, never
reaching the append. -/
theorem c9_invalid_post_leaves_store_unchanged (fs : FileContent)
    (course_code course_name instructor : Option String)
    (h : fieldMissing course_code = true ∨ fieldMissing course_name = true ∨
      fieldMissing instructor = true) :
    (add_courses_post fs course_code course_name instructor).2 = fs ∧
    (add_courses_post fs course_code course_name instructor).1 =
      Except.ok (PostResult.redirectWithError
        (missingFields course_code course_name instructor)) := by
  have hv := validate_submission_fail course_code course_name instructor h
  constructor <;> simp [add_courses_post, hv]

/-- Witness for claim C9: a submission missing its name leaves an
existing one-record file untouched. -/
theorem c9_invalid_post_leaves_store_unchanged_witness :
    fieldMissing (none : Option String) = true ∧
    (add_courses_post (FileContent.json (Json.arr
        [courseToJson { code := "CS101", name := "Intro", instructor := "Dr. A" }]))
      (some "CS203") none (some "Dr. Y")).2 =
      FileContent.json (Json.arr
        [courseToJson { code := "CS101", name := "Intro", instructor := "Dr. A" }]) :=
  ⟨rfl,
   (c9_invalid_post_leaves_store_unchanged
      (FileContent.json (Json.arr
        [courseToJson { code := "CS101", name := "Intro", instructor := "Dr. A" }]))
      (some "CS203") none (some "Dr. Y") (Or.inr (Or.inl rfl))).1⟩

/-- Claim C10: a field is rejected exactly when it is absent or the
empty string; three fields that are nonempty strings, even pure
whitespace, pass validation, and the submission succeeds and stores
the field values verbatim, untrimmed. -/
theorem c10_whitespace_fields_accepted_verbatim (fs : FileContent) (xs : List Json)
    (c n i : String) (hc : ¬ c = "") (hn : ¬ n = "") (hi : ¬ i = "")
    (hfs : collectionOf fs = some xs) :
    (∀ f : Option String, fieldMissing f = true ↔ (f = none ∨ f = some "")) ∧
    validate_submission (some c) (some n) (some i) =
      SubmitResult.success { code := c, name := n, instructor := i } ∧
    (add_courses_post fs (some c) (some n) (some i)).1 =
      Except.ok PostResult.redirectWithSuccess ∧
    (add_courses_post fs (some c) (some n) (some i)).2 =
      FileContent.json (Json.arr
        (xs ++ [courseToJson { code := c, name := n, instructor := i }])) := by
  have hval : validate_submission (some c) (some n) (some i) =
      SubmitResult.success { code := c, name := n, instructor := i } := by
    simp [validate_submission, fieldMissing, hc, hn, hi]
  have hs := save_courses_collection fs xs
    (courseToJson { code := c, name := n, instructor := i }) hfs
  refine ⟨?_, hval, ?_, ?_⟩
  · intro f
    cases f with
    | none => simp [fieldMissing]
    | some s => simp [fieldMissing]
  · simp [add_courses_post, hval, hs]
  · simp [add_courses_post, hval, hs]

/-- Witness for claim C10: all-whitespace fields are accepted and
stored verbatim in an initially absent file. -/
theorem c10_whitespace_fields_accepted_verbatim_witness :
    ¬ (" " : String) = "" ∧
    (add_courses_post FileContent.absent (some " ") (some " ") (some " ")).2 =
      FileContent.json (Json.arr
        [courseToJson { code := " ", name := " ", instructor := " " }]) :=
  ⟨by decide,
   (c10_whitespace_fields_accepted_verbatim FileContent.absent [] " " " " " "
      (by decide) (by decide) (by decide) rfl).2.2.2⟩

/-- Helper: a first-match linear scan returns the head of the filtered
list. -/
lemma find?_filter_head {α : Type} (p : α → Bool) (l : List α) :
    l.find? p = (l.filter p).head? := by
  simp

/-- Helper: when a scan of the first list already succeeds, appending
more elements does not change the result. -/
lemma find?_append_of_isSome {α : Type} (p : α → Bool) (l1 l2 : List α)
    (h : (l1.find? p).isSome = true) : (l1 ++ l2).find? p = l1.find? p := by
  obtain ⟨x, hx⟩ := Option.isSome_iff_exists.mp h
  rw [List.find?_append, hx]
  rfl

/-- Helper: `save_courses` on a file state that does not hold a
collection raises before any write, leaving the file unchanged. -/
lemma save_courses_not_collection (fs : FileContent) (d : Json)
    (h : collectionOf fs = none) : (save_courses fs d).2 = fs := by
  cases fs with
  | absent => simp [collectionOf] at h
  | malformed => rfl
  | json v => cases v <;> first | rfl | simp [collectionOf] at h

/-- Claim C6: `findByCode` is the first exact match of a linear scan
in insertion order (the head of the filtered list), returning nothing
exactly when no record matches; appending a record with an
already-present code succeeds without raising, and the lookup still
returns the first occurrence. -/
theorem c6_find_first_match (courses xs : List Course) (dup : Course) (code : String)
    (_hdup : dup.code = code) (hfound : (findByCode xs code).isSome = true) :
    findByCode courses code = (courses.filter (fun c => c.code == code)).head? ∧
    (findByCode courses code = none ↔ ∀ c ∈ courses, ¬ c.code = code) ∧
    (save_courses (FileContent.json (Json.arr (xs.map courseToJson)))
        (courseToJson dup)).1 = Except.ok () ∧
    findByCode (xs ++ [dup]) code = findByCode xs code := by
  refine ⟨find?_filter_head _ _, ?_, rfl, ?_⟩
  · simp [findByCode, List.find?_eq_none]
  · exact find?_append_of_isSome _ _ _ hfound

/-- Witness for claim C6: with CS203 Systems stored, looking up CS203
finds it; after appending a second CS203 the lookup still returns the
first occurrence. -/
theorem c6_find_first_match_witness :
    (findByCode [{ code := "CS203", name := "Systems", instructor := "Dr. Y" }]
        "CS203").isSome = true ∧
    findByCode
        ([{ code := "CS203", name := "Systems", instructor := "Dr. Y" }] ++
          [{ code := "CS203", name := "Linear", instructor := "Dr. Z" }]) "CS203" =
      findByCode [{ code := "CS203", name := "Systems", instructor := "Dr. Y" }]
        "CS203" :=
  ⟨rfl,
   (c6_find_first_match
      [{ code := "CS203", name := "Systems", instructor := "Dr. Y" }]
      [{ code := "CS203", name := "Systems", instructor := "Dr. Y" }]
      { code := "CS203", name := "Linear", instructor := "Dr. Z" } "CS203"
      rfl rfl).2.2.2⟩

/-- Claim C8: the read-only routes (home, catalog, submission form,
course detail) leave the persisted course file unchanged on every
path, and the only writing operation, the POST submission, either
leaves the file unchanged or replaces the collection by itself with
one record appended, so no existing record is ever modified or
removed. -/
theorem c8_routes_frame (fs : FileContent) (code : String)
    (course_code course_name instructor : Option String) :
    (index_route fs).2 = fs ∧
    (add_courses_get fs).2 = fs ∧
    (course_catalog_route fs).2 = fs ∧
    (course_details_route fs code).2 = fs ∧
    ((add_courses_post fs course_code course_name instructor).2 = fs ∨
      ∃ xs : List Json, collectionOf fs = some xs ∧ ∃ d : Json,
        (add_courses_post fs course_code course_name instructor).2 =
          FileContent.json (Json.arr (xs ++ [d]))) := by
  refine ⟨rfl, rfl, rfl, rfl, ?_⟩
  cases hval : validate_submission course_code course_name instructor with
  | validationError m =>
      left
      simp [add_courses_post, hval]
  | success c =>
      cases hcol : collectionOf fs with
      | none =>
          left
          have hs := save_courses_not_collection fs (courseToJson c) hcol
          unfold add_courses_post
          rw [hval]
          exact hs
      | some xs =>
          right
          refine ⟨xs, rfl, courseToJson c, ?_⟩
          have hs := save_courses_collection fs xs (courseToJson c) hcol
          unfold add_courses_post
          rw [hval]
          show (save_courses fs (courseToJson c)).2 = _
          rw [hs]

/-- Claim C1 (counterexample): the claim says every exit path,
including a raising handler, finalizes the span, bumps the counter and
emits a log line; but when the catalog handler raises (here because
the backing file is malformed and `json.load` raises), `after_request`
is skipped, so the request span is left open and no counter sample or
log record is produced. -/
theorem c1_raising_handler_leaks_span :
    (processRequest
        { method := "GET", path := "/catalog", url := "http://localhost:5000/catalog",
          remote_addr := "127.0.0.1" } 0 5
        (outcomeOfCatalog FileContent.malformed)).span.ended = false ∧
    (processRequest
        { method := "GET", path := "/catalog", url := "http://localhost:5000/catalog",
          remote_addr := "127.0.0.1" } 0 5
        (outcomeOfCatalog FileContent.malformed)).requestCounterAdds = [] ∧
    (processRequest
        { method := "GET", path := "/catalog", url := "http://localhost:5000/catalog",
          remote_addr := "127.0.0.1" } 0 5
        (outcomeOfCatalog FileContent.malformed)).logs = [] :=
  ⟨rfl, rfl, rfl⟩

/-- Claim C1 (amended): for every request whose handler returns a
response, whatever its status, the hooks finalize exactly one span,
add exactly one request-counter sample, and emit exactly one
structured log record whose recorded elapsed time is non-negative
whenever the completion time is not before the start time; when the
handler raises, `after_request` is skipped and the span stays open. -/
theorem c1_finalize_on_response (req : Request) (t0 t1 : Int) (status : Nat)
    (h : t0 ≤ t1) :
    (processRequest req t0 t1 (HandlerOutcome.ok status)).span.ended = true ∧
    (processRequest req t0 t1 (HandlerOutcome.ok status)).requestCounterAdds.length = 1 ∧
    (processRequest req t0 t1 (HandlerOutcome.ok status)).logs.length = 1 ∧
    ∀ l ∈ (processRequest req t0 t1 (HandlerOutcome.ok status)).logs,
      0 ≤ l.processing_time_ms := by
  refine ⟨rfl, rfl, rfl, ?_⟩
  intro l hl
  simp [processRequest, after_request] at hl
  subst hl
  have h0 : (0 : Int) ≤ t1 - t0 := by omega
  simpa using mul_nonneg h0 (by norm_num : (0 : Int) ≤ 1000)

/-- Witness for claim C1: a 200 response at start time 0 and end time
2 yields one ended span, one counter sample and one log record. -/
theorem c1_finalize_on_response_witness :
    (0 : Int) ≤ 2 ∧
    ((processRequest { method := "GET", path := "/", url := "http://localhost:5000/", remote_addr := "127.0.0.1" } 0 2 (HandlerOutcome.ok 200)).span.ended = true ∧
     (processRequest { method := "GET", path := "/", url := "http://localhost:5000/", remote_addr := "127.0.0.1" } 0 2 (HandlerOutcome.ok 200)).requestCounterAdds.length = 1 ∧
     (processRequest { method := "GET", path := "/", url := "http://localhost:5000/", remote_addr := "127.0.0.1" } 0 2 (HandlerOutcome.ok 200)).logs.length = 1) := by
  have h := c1_finalize_on_response
    { method := "GET", path := "/", url := "http://localhost:5000/", remote_addr := "127.0.0.1" }
    0 2 200 (by decide)
  exact ⟨by decide, h.1, h.2.1, h.2.2.1⟩

/-- Claim C2: `before_request` opens a span named METHOD PATH, not yet
ended, tagged with the method and URL; on completion the span carries
the status code, carries the error flag exactly when the status is at
least 400, and is ended; the hooks add one request-counter sample and
one histogram sample keyed by route and method, one error-counter
sample exactly when the status is at least 400, and one structured log
record with method, path, status code, client address and elapsed
milliseconds. -/
theorem c2_interceptor_span_metrics_log (req : Request) (t0 t1 : Int) (status : Nat) :
    (before_request req t0).name = req.method ++ " " ++ req.path ∧
    (before_request req t0).attrs =
      [("http.method", AttrVal.str req.method), ("http.url", AttrVal.str req.url)] ∧
    (before_request req t0).ended = false ∧
    ("http.status_code", AttrVal.nat status) ∈
      (processRequest req t0 t1 (HandlerOutcome.ok status)).span.attrs ∧
    (("error", AttrVal.bool true) ∈
        (processRequest req t0 t1 (HandlerOutcome.ok status)).span.attrs ↔
      400 ≤ status) ∧
    (processRequest req t0 t1 (HandlerOutcome.ok status)).span.ended = true ∧
    (processRequest req t0 t1 (HandlerOutcome.ok status)).requestCounterAdds =
      [{ route := req.path, method := req.method }] ∧
    (processRequest req t0 t1 (HandlerOutcome.ok status)).histogramRecords =
      [{ route := req.path, method := req.method, value := (t1 - t0) * 1000 }] ∧
    ((processRequest req t0 t1 (HandlerOutcome.ok status)).errorCounterAdds =
      if 400 ≤ status then [{ route := req.path, method := req.method }] else []) ∧
    (processRequest req t0 t1 (HandlerOutcome.ok status)).logs =
      [{ message := "Request processed", method := req.method, path := req.path,
         status_code := status, user_ip := req.remote_addr,
         processing_time_ms := (t1 - t0) * 1000 }] := by
  by_cases h4 : 400 ≤ status <;>
    simp [before_request, startSpan, processRequest, after_request, setAttribute,
      endSpan, h4]

/-- Claim C7: on a catalog request the handler does call
`set_attribute` for the course count and names, but only after the
`with` block has already ended the span, so the OpenTelemetry SDK
drops both attributes: the final span is ended and carries only the
method, client address and route attributes set inside the block. -/
theorem c7_catalog_attrs_dropped_after_span_end :
    (course_catalog_span
        { method := "GET", path := "/catalog", url := "http://localhost:5000/catalog",
          remote_addr := "127.0.0.1" }
        [{ code := "CS203", name := "Systems", instructor := "Dr. Y" }]).ended = true ∧
    (course_catalog_span
        { method := "GET", path := "/catalog", url := "http://localhost:5000/catalog",
          remote_addr := "127.0.0.1" }
        [{ code := "CS203", name := "Systems", instructor := "Dr. Y" }]).attrs =
      [("http.method", AttrVal.str "GET"), ("user.ip", AttrVal.str "127.0.0.1"),
       ("route", AttrVal.str "/catalog")] :=
  ⟨rfl, rfl⟩
